import Mathlib

/-!
Shallow embedding of the vafast-logger configuration layer
(source file: `src/unnamed/part_001`, the full packaging variant that
declares `VafastLoggerConfig`, `createLogger`, `createChildLogger`,
`logError`, `logRequest` and `createLoggerSet`).

JavaScript objects are modelled as entry lists `JsObj = List (String × JsValue)`
observed through `getProp` (the value of the LAST occurrence of a key wins,
which matches the semantics of object literals with spreads, where a later
duplicate key overwrites an earlier one, and of property assignment) and
`hasProp` (key presence). Property assignment `o.k = v` is modelled as
`setProp`, an append; under the last-occurrence-wins `getProp` / `hasProp`
observations this is observationally equal to the in-place JS update.

`undefined` is a distinguished `JsValue`; an optional function parameter is
an `Option`, with `none` for an absent argument.
-/

namespace VafastLogger

/-- A JavaScript value, as far as this library manipulates them. -/
inductive JsValue where
  | str : String → JsValue
  | boolean : Bool → JsValue
  | num : Int → JsValue
  | obj : List (String × JsValue) → JsValue
  | undef : JsValue

/-- A JavaScript object: an entry list observed through `getProp`/`hasProp`. -/
abbrev JsObj := List (String × JsValue)

/-- Value of property `k` in object `o`: the last occurrence of the key wins,
as in a JS object literal with spreads. -/
def getProp : JsObj → String → Option JsValue
  | [], _ => none
  | p :: rest, k =>
    match getProp rest k with
    | some v => some v
    | none => if p.1 == k then some p.2 else none

/-- Whether object `o` has a property named `k`. -/
def hasProp (o : JsObj) (k : String) : Bool :=
  o.any (fun p => p.1 == k)

/-- Property assignment `o.k = v`, observed through `getProp`/`hasProp`. -/
def setProp (o : JsObj) (k : String) (v : JsValue) : JsObj :=
  o ++ [(k, v)]

/-- The pino log levels admitted by `VafastLoggerConfig.level`. -/
inductive Level where
  | trace | debug | info | warn | error | fatal | silent
deriving DecidableEq

/-- The string a `Level` denotes in the options object. -/
def Level.toStr : Level → String
  | .trace => "trace"
  | .debug => "debug"
  | .info => "info"
  | .warn => "warn"
  | .error => "error"
  | .fatal => "fatal"
  | .silent => "silent"

/-- The `prettyOptions` field of `VafastLoggerConfig`:
`{ colorize?: boolean, translateTime?: string, ignore?: string }`. -/
structure PrettyOptions where
  colorize : Option Bool := none
  translateTime : Option String := none
  ignore : Option String := none

/-- `VafastLoggerConfig` from `src/unnamed/part_001`. All fields optional;
`pinoOptions` is the caller-supplied pino `LoggerOptions` passthrough map. -/
structure VafastLoggerConfig where
  level : Option Level := none
  production : Option Bool := none
  name : Option String := none
  pinoOptions : Option JsObj := none
  pretty : Option Bool := none
  prettyOptions : Option PrettyOptions := none

/-- The options object `createLogger` builds and passes to `pino(...)`.

Mirrors the source:
```
const { level = 'info', production = false, name,
        pinoOptions = \x7b\x7d, pretty = true, prettyOptions = \x7b\x7d } = config
const options = \x7b level: production ? 'info' : level,
                  ...(name && \x7b name \x7d), ...pinoOptions \x7d
if (!production && pretty) options.transport = \x7b target: 'pino-pretty',
  options: \x7b colorize: prettyOptions.colorize ?? true,
             translateTime: prettyOptions.translateTime ?? 'SYS:standard',
             ignore: prettyOptions.ignore ?? 'pid,hostname' \x7d \x7d
```
`...(name && \x7b name \x7d)` spreads nothing when `name` is `undefined` or the
empty string (both falsy; spreading `""` or `false` contributes no keys). -/
def createLoggerOptions (config : VafastLoggerConfig) : JsObj :=
  let level := config.level.getD Level.info
  let production := config.production.getD false
  let name := config.name
  let pinoOptions := config.pinoOptions.getD []
  let pretty := config.pretty.getD true
  let prettyOptions := config.prettyOptions.getD {}
  let options : JsObj :=
    [("level", JsValue.str (Level.toStr (if production then Level.info else level)))]
    ++ (match name with
        | some n => if n == "" then [] else [("name", JsValue.str n)]
        | none => [])
    ++ pinoOptions
  if !production && pretty then
    setProp options "transport" (JsValue.obj
      [("target", JsValue.str "pino-pretty"),
       ("options", JsValue.obj
         [("colorize", JsValue.boolean (prettyOptions.colorize.getD true)),
          ("translateTime", JsValue.str (prettyOptions.translateTime.getD "SYS:standard")),
          ("ignore", JsValue.str (prettyOptions.ignore.getD "pid,hostname"))])])
  else options

/-- A pino logger handle: the options it was created with, plus the child
bindings accumulated via `.child`. -/
structure Logger where
  options : JsObj
  bindings : JsObj

/-- The external factory `pino(options)`: a fresh root logger, no bindings. -/
def pino (options : JsObj) : Logger :=
  { options := options, bindings := [] }

/-- `createLogger(config)` from the source: resolve options, call `pino`. -/
def createLogger (config : VafastLoggerConfig) : Logger :=
  pino (createLoggerOptions config)

/-- `parent.child(bindings)`: same options, extra bindings merged last. -/
def Logger.child (parent : Logger) (b : JsObj) : Logger :=
  { options := parent.options, bindings := parent.bindings ++ b }

/-- `createChildLogger(parent, module)` from the source. -/
def createChildLogger (parent : Logger) (module : String) : Logger :=
  parent.child [("module", JsValue.str module)]

/-- `LoggerSet` from the source: exactly six named slots. -/
structure LoggerSet where
  app : Logger
  route : Logger
  db : Logger
  middleware : Logger
  auth : Logger
  external : Logger

/-- `createLoggerSet(config)` from the source. -/
def createLoggerSet (config : VafastLoggerConfig) : LoggerSet :=
  let app := createLogger config
  { app := app
    route := createChildLogger app "route"
    db := createChildLogger app "db"
    middleware := createChildLogger app "middleware"
    auth := createChildLogger app "auth"
    external := createChildLogger app "external" }

/-- One emitted log record: the severity, the structured fields object and the
message string handed to the logger method. -/
structure LogRecord where
  level : Level
  fields : JsObj
  message : String

/-- A JS `Error` as `logError` reads it (`stack` may be `undefined`). -/
structure JsError where
  message : String
  name : String
  stack : Option String

/-- Lift an optional string to a `JsValue` (absent means `undefined`). -/
def jsStr? : Option String → JsValue
  | some s => JsValue.str s
  | none => JsValue.undef

/-- `logError(logger, error, message?, context?)`: the single record it emits.
Mirrors
```
logger.error(\x7b err: \x7b message: error.message, name: error.name,
                     stack: error.stack \x7d, ...context \x7d,
             message ?? error.message)
```
The `logger` argument does not shape the record, only receives it. -/
def logError (logger : Logger) (error : JsError) (message : Option String)
    (context : JsObj) : LogRecord :=
  { level := Level.error
    fields :=
      [("err", JsValue.obj
        [("message", JsValue.str error.message),
         ("name", JsValue.str error.name),
         ("stack", jsStr? error.stack)])]
      ++ context
    message := message.getD error.message }

/-- `logRequest(logger, method, path, status, duration, context?)`: the single
record it emits. Mirrors
```
const level = status >= 500 ? 'error' : status >= 400 ? 'warn' : 'info'
logger[level](\x7b method, path, status, duration, ...context \x7d,
  `$\x7bmethod\x7d $\x7bpath\x7d $\x7bstatus\x7d $\x7bduration\x7dms`)
``` -/
def logRequest (logger : Logger) (method path : String) (status duration : Int)
    (context : JsObj) : LogRecord :=
  { level :=
      if status ≥ 500 then Level.error
      else if status ≥ 400 then Level.warn
      else Level.info
    fields :=
      [("method", JsValue.str method),
       ("path", JsValue.str path),
       ("status", JsValue.num status),
       ("duration", JsValue.num duration)]
      ++ context
    message :=
      method ++ " " ++ path ++ " " ++ toString status ++ " "
        ++ toString duration ++ "ms" }

/-! Basic observations on `JsObj`. -/

theorem getProp_eq_none_of_hasProp_false {o : JsObj} {k : String}
    (h : hasProp o k = false) : getProp o k = none := by
  induction o with
  | nil => rfl
  | cons p rest ih =>
    simp only [hasProp, List.any_cons, Bool.or_eq_false_iff] at h
    simp only [getProp, ih (by simpa [hasProp] using h.2), h.1, Bool.false_eq_true, if_false]

theorem getProp_isSome_of_hasProp {o : JsObj} {k : String}
    (h : hasProp o k = true) : (getProp o k).isSome = true := by
  induction o with
  | nil => simp [hasProp] at h
  | cons p rest ih =>
    simp only [getProp]
    cases hr : getProp rest k with
    | some v => simp
    | none =>
      have hrest : hasProp rest k = false := by
        cases hh : hasProp rest k with
        | false => rfl
        | true => exact absurd (ih hh) (by simp [hr])
      simp only [hasProp, List.any_cons] at h hrest
      simp only [hrest, Bool.or_false] at h
      simp [h]

theorem getProp_append (xs ys : JsObj) (k : String) :
    getProp (xs ++ ys) k = if hasProp ys k then getProp ys k else getProp xs k := by
  induction xs with
  | nil =>
    cases h : hasProp ys k with
    | false => simp [getProp_eq_none_of_hasProp_false h, getProp]
    | true => simp
  | cons p xs ih =>
    cases h : hasProp ys k with
    | false =>
      simp only [h, Bool.false_eq_true, if_false] at ih ⊢
      simp only [List.cons_append, getProp, List.append_eq, ih]
    | true =>
      simp only [h, if_true] at ih ⊢
      obtain ⟨v, hv⟩ := Option.isSome_iff_exists.mp (getProp_isSome_of_hasProp h)
      simp only [List.cons_append, getProp, List.append_eq, ih, hv]

theorem hasProp_append (xs ys : JsObj) (k : String) :
    hasProp (xs ++ ys) k = (hasProp xs k || hasProp ys k) := by
  simp [hasProp, List.any_append]

theorem getProp_of_mem_last {o : JsObj} {k : String} {v : JsValue}
    (h : getProp o k = some v) : hasProp o k = true := by
  cases hh : hasProp o k with
  | false => simp [getProp_eq_none_of_hasProp_false hh] at h
  | true => rfl

/-! Characterization of `createLoggerOptions` as a base object plus an
optional transport assignment, used to structure the proofs below. -/

/-- The object literal `createLogger` builds before the transport assignment. -/
def baseOptions (c : VafastLoggerConfig) : JsObj :=
  [("level", JsValue.str (Level.toStr
      (if c.production.getD false then Level.info else c.level.getD Level.info)))]
  ++ (match c.name with
      | some n => if n == "" then [] else [("name", JsValue.str n)]
      | none => [])
  ++ c.pinoOptions.getD []

/-- The pretty-print transport descriptor `createLogger` assigns in
development mode. -/
def prettyTransport (c : VafastLoggerConfig) : JsValue :=
  JsValue.obj
    [("target", JsValue.str "pino-pretty"),
     ("options", JsValue.obj
       [("colorize", JsValue.boolean ((c.prettyOptions.getD {}).colorize.getD true)),
        ("translateTime", JsValue.str ((c.prettyOptions.getD {}).translateTime.getD "SYS:standard")),
        ("ignore", JsValue.str ((c.prettyOptions.getD {}).ignore.getD "pid,hostname"))])]

theorem createLoggerOptions_eq (c : VafastLoggerConfig) :
    createLoggerOptions c =
      if !(c.production.getD false) && c.pretty.getD true then
        setProp (baseOptions c) "transport" (prettyTransport c)
      else baseOptions c := rfl

/-- The keys the object literal contributes besides the passthrough map are
`"level"` and (possibly) `"name"`. -/
theorem hasProp_baseOptions (c : VafastLoggerConfig) (k : String)
    (hk1 : ("level" == k) = false) (hk2 : ("name" == k) = false) :
    hasProp (baseOptions c) k = hasProp (c.pinoOptions.getD []) k := by
  simp only [baseOptions, hasProp_append]
  rcases c.name with _ | n
  · simp [hasProp, hk1]
  · cases h : (n == "") with
    | true => simp [h, hasProp, hk1]
    | false => simp [h, hasProp, hk1, hk2]

/-- A key supplied by the passthrough map keeps its caller value in the
object literal (the spread comes last). -/
theorem getProp_baseOptions_pino (c : VafastLoggerConfig) (k : String) (v : JsValue)
    (h : getProp (c.pinoOptions.getD []) k = some v) :
    getProp (baseOptions c) k = some v := by
  simp only [baseOptions, getProp_append, getProp_of_mem_last h, if_true, h]

/-- When the passthrough map has no `"level"` key, the literal's own computed
level entry is what `getProp` sees. -/
theorem getProp_baseOptions_level (c : VafastLoggerConfig)
    (hpino : hasProp (c.pinoOptions.getD []) "level" = false) :
    getProp (baseOptions c) "level" =
      some (JsValue.str (Level.toStr
        (if c.production.getD false then Level.info else c.level.getD Level.info))) := by
  simp only [baseOptions, getProp_append, hpino, Bool.false_eq_true, if_false]
  rcases c.name with _ | n
  · simp [hasProp, getProp]
  · cases h : (n == "") with
    | true => simp [h, hasProp, getProp]
    | false => simp [h, hasProp, getProp]

/-! Claim theorems. -/

/-- C4: for every configuration, `createLoggerSet` returns a record with
exactly six named slots, whose `app` slot is the single `createLogger`
result, whose five other slots are each derived from `app` via
`createChildLogger` with binding exactly `[("module", <own slot name>)]`,
and whose `app` slot carries no bindings (in particular no `module`
binding). -/
theorem C4_createLoggerSet_shape (c : VafastLoggerConfig) :
    (createLoggerSet c).app = createLogger c ∧
    (createLoggerSet c).route = createChildLogger (createLoggerSet c).app "route" ∧
    (createLoggerSet c).db = createChildLogger (createLoggerSet c).app "db" ∧
    (createLoggerSet c).middleware = createChildLogger (createLoggerSet c).app "middleware" ∧
    (createLoggerSet c).auth = createChildLogger (createLoggerSet c).app "auth" ∧
    (createLoggerSet c).external = createChildLogger (createLoggerSet c).app "external" ∧
    (createLoggerSet c).route.bindings = [("module", JsValue.str "route")] ∧
    (createLoggerSet c).db.bindings = [("module", JsValue.str "db")] ∧
    (createLoggerSet c).middleware.bindings = [("module", JsValue.str "middleware")] ∧
    (createLoggerSet c).auth.bindings = [("module", JsValue.str "auth")] ∧
    (createLoggerSet c).external.bindings = [("module", JsValue.str "external")] ∧
    (createLoggerSet c).app.bindings = [] :=
  ⟨rfl, rfl, rfl, rfl, rfl, rfl, rfl, rfl, rfl, rfl, rfl, rfl⟩

/-- C5 counterexample: the claim says status codes above 599 fall through to
severity `info`, but `logRequest` at status 600 selects `error`
(the first branch `status >= 500` already fires). -/
theorem C5_counterexample :
    (logRequest (pino []) "GET" "/api/users" 600 15 []).level = Level.error ∧
    Level.error ≠ Level.info := by
  exact ⟨by decide, by decide⟩

/-- C5 (amended): `logRequest` selects severity `error` when
`status >= 500`, `warn` when `400 <= status <= 499`, and `info` otherwise;
status codes below 100 fall through to `info`, while status codes above 599
satisfy `status >= 500` and therefore select `error`. -/
theorem C5_logRequest_severity (lg : Logger) (m p : String)
    (status duration : Int) (ctx : JsObj) :
    (logRequest lg m p status duration ctx).level =
      if 500 ≤ status then Level.error
      else if 400 ≤ status ∧ status ≤ 499 then Level.warn
      else Level.info := by
  simp only [logRequest]
  split_ifs <;> first | rfl | omega

/-- C6: `logError` emits one record at `error` severity whose fields are the
spread `("err", obj with the error message, name and stack) :: context`,
whose message is the given message when one is given and the error's own
message otherwise. -/
theorem C6_logError_record (lg : Logger) (e : JsError) (m : String) (ctx : JsObj) :
    (∀ msg : Option String,
      (logError lg e msg ctx).level = Level.error ∧
      (logError lg e msg ctx).fields =
        ("err", JsValue.obj
          [("message", JsValue.str e.message),
           ("name", JsValue.str e.name),
           ("stack", jsStr? e.stack)]) :: ctx) ∧
    (logError lg e (some m) ctx).message = m ∧
    (logError lg e none ctx).message = e.message :=
  ⟨fun _ => ⟨rfl, rfl⟩, rfl, rfl⟩

/-- C10: passing the explicit empty string as the message to `logError`
yields a record whose message is the empty string, not `error.message`; the
fallback to `error.message` applies only when the message argument is
absent (the source uses nullish coalescing, not a truthiness test). -/
theorem C10_empty_message_wins (lg : Logger) (e : JsError) (ctx : JsObj) :
    (logError lg e (some "") ctx).message = "" ∧
    (logError lg e none ctx).message = e.message :=
  ⟨rfl, rfl⟩

/-- Shared helper: in development mode (`production` false, `pretty` true,
after default substitution) the resolved options carry exactly the
pretty-print transport descriptor under `"transport"`, with each of its
three sub-options defaulted from the corresponding `prettyOptions` field. -/
theorem getProp_transport_dev (c : VafastLoggerConfig)
    (hprod : c.production.getD false = false)
    (hpretty : c.pretty.getD true = true) :
    getProp (createLoggerOptions c) "transport" = some (prettyTransport c) := by
  rw [createLoggerOptions_eq, hprod, hpretty]
  simp only [Bool.not_false, Bool.true_and, if_true, setProp, getProp_append]
  simp [hasProp, getProp]

/-- C8: whenever the pretty transport descriptor is attached (`production`
false and `pretty` true after defaults), it names `pino-pretty` and its
three sub-options are `colorize` defaulting to `true`, `translateTime`
defaulting to `"SYS:standard"` and `ignore` defaulting to
`"pid,hostname"`, each taken from the corresponding `prettyOptions` field
when that field is supplied. -/
theorem C8_pretty_transport_options (c : VafastLoggerConfig)
    (hprod : c.production.getD false = false)
    (hpretty : c.pretty.getD true = true) :
    getProp (createLoggerOptions c) "transport" =
      some (JsValue.obj
        [("target", JsValue.str "pino-pretty"),
         ("options", JsValue.obj
           [("colorize", JsValue.boolean ((c.prettyOptions.getD {}).colorize.getD true)),
            ("translateTime",
              JsValue.str ((c.prettyOptions.getD {}).translateTime.getD "SYS:standard")),
            ("ignore",
              JsValue.str ((c.prettyOptions.getD {}).ignore.getD "pid,hostname"))])]) :=
  getProp_transport_dev c hprod hpretty

/-- C8 witness: `prettyOptions = { colorize: false, ignore: "pid" }` in a
default (development) configuration overrides exactly those two
sub-options, with `translateTime` keeping its default. -/
theorem C8_pretty_transport_options_witness :
    getProp (createLoggerOptions
        { prettyOptions := some { colorize := some false, ignore := some "pid" } })
      "transport" =
      some (JsValue.obj
        [("target", JsValue.str "pino-pretty"),
         ("options", JsValue.obj
           [("colorize", JsValue.boolean false),
            ("translateTime", JsValue.str "SYS:standard"),
            ("ignore", JsValue.str "pid")])]) :=
  C8_pretty_transport_options
    { prettyOptions := some { colorize := some false, ignore := some "pid" } } rfl rfl

/-- C9: two configurations that differ only in `prettyOptions` resolve to
identical options whenever `production` is true or `pretty` is false
(after default substitution): `prettyOptions` has no effect unless the
pretty transport is attached. -/
theorem C9_prettyOptions_frame (c : VafastLoggerConfig) (po1 po2 : Option PrettyOptions)
    (h : c.production.getD false = true ∨ c.pretty.getD true = false) :
    createLoggerOptions { c with prettyOptions := po1 } =
      createLoggerOptions { c with prettyOptions := po2 } := by
  rw [createLoggerOptions_eq, createLoggerOptions_eq]
  rcases h with h | h <;> simp [baseOptions, h]

/-- C9 witness: with `production = true`, supplying `colorize = false`
versus supplying no `prettyOptions` at all yields identical resolved
options. -/
theorem C9_prettyOptions_frame_witness :
    createLoggerOptions
        { production := some true, prettyOptions := some { colorize := some false } } =
      createLoggerOptions { production := some true } :=
  C9_prettyOptions_frame { production := some true }
    (some { colorize := some false }) none (Or.inl rfl)

/-- C1 counterexample: the claim quantifies over every configuration, but
the caller passthrough map is spread after the computed level, so a
production config whose `pinoOptions` carries `level: "trace"` hands pino
`level = "trace"`, not `"info"`. -/
theorem C1_counterexample :
    getProp (createLoggerOptions
        { production := some true, level := some Level.debug,
          pinoOptions := some [("level", JsValue.str "trace")] }) "level" ≠
      some (JsValue.str "info") := by
  intro h
  have h0 : getProp (createLoggerOptions
      { production := some true, level := some Level.debug,
        pinoOptions := some [("level", JsValue.str "trace")] }) "level" =
      some (JsValue.str "trace") := rfl
  rw [h0] at h
  injection h with h1
  injection h1 with h2
  exact absurd h2 (by decide)

/-- C1 (amended): for every configuration with `production = true` whose
`pinoOptions` passthrough supplies no `level` key, the options object
passed to the external factory has level `"info"`, regardless of the
`level` requested in the configuration. -/
theorem C1_production_level (c : VafastLoggerConfig)
    (hprod : c.production = some true)
    (hpino : hasProp (c.pinoOptions.getD []) "level" = false) :
    getProp (createLoggerOptions c) "level" = some (JsValue.str "info") := by
  have hp : c.production.getD false = true := by rw [hprod]; rfl
  rw [createLoggerOptions_eq, hp]
  simp only [Bool.not_true, Bool.false_and, Bool.false_eq_true, if_false]
  rw [getProp_baseOptions_level c hpino, hp]
  simp [Level.toStr]

/-- C1 witness: a production config requesting `debug` resolves to level
`"info"`. -/
theorem C1_production_level_witness :
    getProp (createLoggerOptions { production := some true, level := some Level.debug })
      "level" = some (JsValue.str "info") :=
  C1_production_level { production := some true, level := some Level.debug } rfl rfl

/-- Shared helper: for a key other than `"transport"`, presence in the
resolved options is presence in the object literal (the transport
assignment touches only `"transport"`). -/
theorem hasProp_createLoggerOptions (c : VafastLoggerConfig) (k : String)
    (hk : ("transport" == k) = false) :
    hasProp (createLoggerOptions c) k = hasProp (baseOptions c) k := by
  rw [createLoggerOptions_eq]
  cases hcond : (!(c.production.getD false) && c.pretty.getD true) with
  | true => simp [hcond, setProp, hasProp_append, hasProp, hk]
  | false => simp [hcond]

/-- Shared helper: for a key other than `"transport"`, lookup in the
resolved options is lookup in the object literal. -/
theorem getProp_createLoggerOptions (c : VafastLoggerConfig) (k : String)
    (hk : ("transport" == k) = false) :
    getProp (createLoggerOptions c) k = getProp (baseOptions c) k := by
  rw [createLoggerOptions_eq]
  cases hcond : (!(c.production.getD false) && c.pretty.getD true) with
  | true => simp [hcond, setProp, getProp_append, hasProp, hk]
  | false => simp [hcond]

/-- C2 counterexample: the claim says that with `production = true` no
transport descriptor is attached, but a caller can smuggle one in through
the `pinoOptions` passthrough — here the resolved options of a production
config do carry a pretty-print transport descriptor. -/
theorem C2_counterexample :
    getProp (createLoggerOptions
        { production := some true,
          pinoOptions := some [("transport", JsValue.obj
            [("target", JsValue.str "pino-pretty"),
             ("options", JsValue.obj
               [("colorize", JsValue.boolean true),
                ("translateTime", JsValue.str "SYS:standard"),
                ("ignore", JsValue.str "pid,hostname")])])] }) "transport" =
      some (JsValue.obj
        [("target", JsValue.str "pino-pretty"),
         ("options", JsValue.obj
           [("colorize", JsValue.boolean true),
            ("translateTime", JsValue.str "SYS:standard"),
            ("ignore", JsValue.str "pid,hostname")])]) := rfl

/-- C2 (amended): for every configuration whose `pinoOptions` passthrough
supplies no `transport` key, the resolved options contain a `transport`
key exactly when `production` is false and `pretty` is true (after default
substitution), and in that case its value is the pretty-print transport
descriptor. -/
theorem C2_transport_attachment (c : VafastLoggerConfig)
    (hpino : hasProp (c.pinoOptions.getD []) "transport" = false) :
    (hasProp (createLoggerOptions c) "transport" =
      (!(c.production.getD false) && c.pretty.getD true)) ∧
    ((c.production.getD false = false) → (c.pretty.getD true = true) →
      getProp (createLoggerOptions c) "transport" = some (prettyTransport c)) := by
  constructor
  · rw [createLoggerOptions_eq]
    cases hcond : (!(c.production.getD false) && c.pretty.getD true) with
    | true => simp [hcond, setProp, hasProp_append, hasProp]
    | false =>
      simp only [hcond, Bool.false_eq_true, if_false]
      rw [hasProp_baseOptions c "transport" (by decide) (by decide), hpino]
  · intro h1 h2
    exact getProp_transport_dev c h1 h2

/-- C2 witness: the empty configuration (development defaults) attaches
exactly the default pretty transport descriptor. -/
theorem C2_transport_attachment_witness :
    hasProp (createLoggerOptions ({} : VafastLoggerConfig)) "transport" = true ∧
    getProp (createLoggerOptions ({} : VafastLoggerConfig)) "transport" =
      some (prettyTransport ({} : VafastLoggerConfig)) :=
  ⟨(C2_transport_attachment {} rfl).1, (C2_transport_attachment {} rfl).2 rfl rfl⟩

/-- C3 counterexample: the claim says every caller-supplied key — including
the transport descriptor — survives into the resolved options, but in the
default development configuration the pretty transport assignment runs
after the spread and overwrites a caller-supplied `transport`. -/
theorem C3_counterexample :
    getProp (createLoggerOptions { pinoOptions := some [("transport", JsValue.str "custom")] })
      "transport" ≠ some (JsValue.str "custom") := by
  intro h
  have h0 : getProp (createLoggerOptions
      { pinoOptions := some [("transport", JsValue.str "custom")] }) "transport" =
      some (prettyTransport { pinoOptions := some [("transport", JsValue.str "custom")] }) := rfl
  rw [h0] at h
  injection h with h1
  exact JsValue.noConfusion h1

/-- C3 (amended): the caller-supplied `pinoOptions` map is shallow-merged
last into the object literal, so every key the caller supplies — including
the computed `level` and `name` — keeps the caller's value in the resolved
options, except that a caller-supplied `transport` survives only when
`production` is true or `pretty` is false (otherwise the pretty transport
assignment, which runs after the merge, overwrites it). -/
theorem C3_passthrough_override (c : VafastLoggerConfig) (k : String) (v : JsValue)
    (h : getProp (c.pinoOptions.getD []) k = some v)
    (hcase : k ≠ "transport" ∨ c.production.getD false = true ∨ c.pretty.getD true = false) :
    getProp (createLoggerOptions c) k = some v := by
  rw [createLoggerOptions_eq]
  cases hcond : (!(c.production.getD false) && c.pretty.getD true) with
  | false =>
    simp only [hcond, Bool.false_eq_true, if_false]
    exact getProp_baseOptions_pino c k v h
  | true =>
    have hk : k ≠ "transport" := by
      rcases hcase with hk | hp | hp
      · exact hk
      · rw [hp] at hcond; simp at hcond
      · rw [hp] at hcond; simp at hcond
    have hk2 : ("transport" == k) = false := beq_eq_false_iff_ne.mpr (Ne.symm hk)
    simp only [hcond, if_true, setProp, getProp_append]
    simp [hasProp, hk2, getProp_baseOptions_pino c k v h]

/-- C3 witness: a caller-supplied `level` in `pinoOptions` overrides the
computed level even in the default configuration. -/
theorem C3_passthrough_override_witness :
    getProp (createLoggerOptions { pinoOptions := some [("level", JsValue.str "debug")] })
      "level" = some (JsValue.str "debug") :=
  C3_passthrough_override { pinoOptions := some [("level", JsValue.str "debug")] }
    "level" (JsValue.str "debug") rfl (Or.inl (by decide))

/-- C7 counterexample: the claim says that with `name` absent the resolved
options contain no `name` key at all, but a `name` entry in the
`pinoOptions` passthrough lands in the resolved options. -/
theorem C7_counterexample :
    ({ pinoOptions := some [("name", JsValue.str "ghost")] } : VafastLoggerConfig).name
      = none ∧
    hasProp (createLoggerOptions { pinoOptions := some [("name", JsValue.str "ghost")] })
      "name" = true :=
  ⟨rfl, rfl⟩

/-- C7 (amended): for every configuration whose `pinoOptions` passthrough
supplies no `name` key: when `name` is absent or the empty string the
resolved options contain no `name` key at all, and when `name` is a
non-empty string the resolved options carry that name. -/
theorem C7_name_key (c : VafastLoggerConfig)
    (hpino : hasProp (c.pinoOptions.getD []) "name" = false) :
    ((c.name = none ∨ c.name = some "") → hasProp (createLoggerOptions c) "name" = false) ∧
    (∀ n : String, c.name = some n → n ≠ "" →
      getProp (createLoggerOptions c) "name" = some (JsValue.str n)) := by
  constructor
  · intro hname
    rw [hasProp_createLoggerOptions c "name" (by decide)]
    simp only [baseOptions, hasProp_append, hpino, Bool.or_false]
    rcases hname with h | h <;> simp [h, hasProp]
  · intro n hn hne
    have hb : (n == "") = false := beq_eq_false_iff_ne.mpr hne
    have hpn : getProp (c.pinoOptions.getD []) "name" = none :=
      getProp_eq_none_of_hasProp_false hpino
    rw [getProp_createLoggerOptions c "name" (by decide)]
    simp [baseOptions, hn, hb, getProp_append, hasProp, hpino, hpn, getProp]

/-- C7 witness: the empty configuration resolves with no `name` key, and a
configuration naming `my-app` resolves with that name. -/
theorem C7_name_key_witness :
    hasProp (createLoggerOptions ({} : VafastLoggerConfig)) "name" = false ∧
    getProp (createLoggerOptions { name := some "my-app" }) "name" =
      some (JsValue.str "my-app") :=
  ⟨(C7_name_key {} rfl).1 (Or.inl rfl),
   (C7_name_key { name := some "my-app" } rfl).2 "my-app" rfl (by decide)⟩

end VafastLogger
